/-
Verification development for the interview-orchestration backend.

Shallow embedding, translated from the Python sources under backend/services/:
  agent_guardrails.py, selection.py, llm_client.py, code_evaluator.py,
  agent_context.py, conversation.py, agent_tools.py, agent_reasoning.py,
  interview_agent.py.

Modelling conventions:
  * machine floats in [0,1] are embedded as rationals;
  * an external LLM call (together with the JSON parsing that the source
    wraps in the same try/except block) is an oracle value of type
    `Except String _`, universally quantified in the theorems;
  * `random.choice` / `random.choices` draws are an oracle `Nat -> Nat`
    used as an index modulo the live pool size;
  * Python string truthiness is `!s.isEmpty`, `x.strip()` truthiness is
    "contains a non-whitespace character";
  * regular expressions from the sources are compiled by hand into a tiny
    matcher supporting exactly the constructs they use: literal words and
    phrases wrapped in word boundaries, a trailing `\w*`, and `\s?`.
-/
import Mathlib

/-! ## Basic string helpers -/

/-- Python `\w` on the (ASCII) inputs at hand: letters, digits, underscore. -/
def isWordChar (c : Char) : Bool :=
  c.isAlphanum || c == '_'

/-- Lower-casing, `str.lower()`. -/
def lowerStr (s : String) : String :=
  ⟨s.data.map Char.toLower⟩

/-- Substring test on character lists (`needle in hay` for Python strings). -/
def containsSubL (hay needle : List Char) : Bool :=
  hay.tails.any (fun t => needle.isPrefixOf t)

/-- Substring test on strings. -/
def containsSub (hay needle : String) : Bool :=
  containsSubL hay.data needle.data

/-- Python truthiness of a string (`len(s) > 0`). -/
def strTruthy (s : String) : Bool :=
  !s.data.isEmpty

/-- Python truthiness of an optional string (`None` and `""` are falsy). -/
def optTruthy : Option String → Bool
  | none => false
  | some s => !s.data.isEmpty

/-- Truthiness of `s.strip()`: some character is not whitespace. -/
def stripTruthy (s : String) : Bool :=
  s.data.any (fun c => !c.isWhitespace)

/-- `s[:n]` on code points. -/
def takeChars (n : Nat) (s : String) : String :=
  ⟨s.data.take n⟩

/-- `s.endswith(t)`. -/
def endsWithStr (s t : String) : Bool :=
  t.data.isSuffixOf s.data

/-! ## A tiny regex core

The sources use `re.search` with patterns of the shape
`\b(w1|w2|...)\b` where each alternative is a literal word or phrase,
plus the two variants `pregnan\w*` and `birth\s?date`.  Each alternative
is compiled to a token list; `\w*` right before a closing `\b` makes the
trailing boundary vacuous, so it is encoded by dropping the trailing
boundary requirement. -/

inductive RTok where
  | lit (c : Char)
  | optWs
deriving DecidableEq

/-- One alternative of an unsafe-keyword pattern: its tokens, and whether a
trailing word boundary is required. -/
structure KPat where
  toks : List RTok
  trailB : Bool
deriving DecidableEq

def litToks (s : String) : List RTok :=
  s.data.map RTok.lit

def kw (s : String) : KPat :=
  ⟨litToks s, true⟩

/-- Match the token list at the head of `s`; when `trailB` is set the
character after the match (if any) must not be a word character. -/
def matchToks : List RTok → List Char → Bool → Bool
  | [], s, trailB =>
    !trailB || (match s with
                | [] => true
                | c :: _ => !isWordChar c)
  | .lit _ :: _, [], _ => false
  | .lit c :: p, x :: s, trailB => x == c && matchToks p s trailB
  | .optWs :: p, s, trailB =>
    matchToks p s trailB ||
      (match s with
       | [] => false
       | x :: s2 => x.isWhitespace && matchToks p s2 trailB)

/-- Scan `s` for a match of `p` whose start sits on a word boundary
(the previous character, if any, is not a word character). -/
def searchAux (p : List RTok) (trailB : Bool) : Bool → List Char → Bool
  | prevIsWord, s =>
    ((!prevIsWord) && matchToks p s trailB) ||
      (match s with
       | [] => false
       | c :: cs => searchAux p trailB (isWordChar c) cs)

def searchPat (p : KPat) (s : List Char) : Bool :=
  searchAux p.toks p.trailB false s

/-- `re.search` over an alternation of keyword patterns (case handled by
lower-casing both sides before the call). -/
def searchAny (ps : List KPat) (s : String) : Bool :=
  ps.any (fun p => searchPat p (lowerStr s).data)

/-! ## JSON-ish values for tool results and parsed LLM replies -/

inductive JVal where
  | s (v : String)
  | n (v : ℚ)
  | b (v : Bool)
  | null
  | arr (v : List String)
deriving DecidableEq

/-- A parsed JSON object / Python dict with string keys. -/
def JDict := List (String × JVal)

instance : DecidableEq JDict := by
  unfold JDict
  infer_instance

/-- `d.get(k)` (first binding wins, mirroring dict key uniqueness). -/
def dget (d : JDict) (k : String) : Option JVal :=
  (d.find? (fun p => p.1 == k)).map (fun p => p.2)

/-- `d.get(k, default)` for string-valued fields. -/
def getStrD (d : JDict) (k : String) (dflt : String) : String :=
  match dget d k with
  | some (.s v) => v
  | _ => dflt

/-- `d.get(k, default)` for numeric fields (non-numeric values fall back to
the default; the decisive paths in the sources only ever see numbers here). -/
def getNumD (d : JDict) (k : String) (dflt : ℚ) : ℚ :=
  match dget d k with
  | some (.n v) => v
  | _ => dflt

/-- `d[k] = v` (replace the first binding or append). -/
def dset (d : JDict) (k : String) (v : JVal) : JDict :=
  match d with
  | [] => [(k, v)]
  | (k0, v0) :: rest =>
    if k0 == k then (k0, v) :: rest else (k0, v0) :: dset rest k v

/-- Python truthiness of a looked-up JSON value (`None`/missing, `""`, `0`,
`False`, `[]` are falsy). -/
def jTruthy : Option JVal → Bool
  | none => false
  | some .null => false
  | some (.s v) => !v.data.isEmpty
  | some (.n v) => v != 0
  | some (.b v) => v
  | some (.arr v) => !v.isEmpty

/-- Clamp to [0,1]: `max(0.0, min(1.0, x))`. -/
def clamp01 (q : ℚ) : ℚ :=
  max 0 (min 1 q)

/-! ## agent_guardrails.py -/

namespace AgentGuardrails

/-- `UNSAFE_PATTERNS`, flattened: every pattern is `\b(alt|...|alt)\b`
over literal alternatives, so the alternation flattens to one keyword
list with leading and trailing word boundaries. -/
def UNSAFE_PATTERNS : List KPat :=
  [kw "age", kw "birthday", kw "birthdate", kw "dob",
   kw "race", kw "ethnicity", kw "ethnic", kw "skin color",
   kw "religion", kw "religious", kw "church", kw "mosque", kw "synagogue",
   kw "sexual orientation", kw "sexuality", kw "pregnan", kw "pregnancy",
   kw "marital", kw "marriage",
   kw "gender identity", kw "gender", kw "transgender", kw "nonbinary",
   kw "nationality", kw "citizenship", kw "immigration", kw "visa",
   kw "disability", kw "disabled", kw "medical condition", kw "health condition",
   kw "political", kw "politics", kw "party affiliation",
   kw "criminal record", kw "arrest", kw "conviction"]

def SAFE_EXCEPTIONS : List String :=
  ["race condition", "data race", "gender equality"]

/-- `is_question_allowed`: return False if the question likely violates
boundary rules. -/
def is_question_allowed (question : String) : Bool :=
  if !(strTruthy question) then true
  else
    let lower := lowerStr question
    if SAFE_EXCEPTIONS.any (fun exc => containsSub lower exc) then true
    else if UNSAFE_PATTERNS.any (fun p => searchPat p lower.data) then false
    else true

/-- `filter_question`: the question if allowed, else None. -/
def filter_question (question : String) : Option String :=
  if is_question_allowed question then some question else none

/-- Result record of `validate_agent_decision`. -/
structure DecisionValidation where
  is_valid : Bool
  corrected_decision : Option String
  reason : Option String
deriving DecidableEq

/-- `validate_agent_decision`: validate and potentially correct an agent
decision. -/
def validate_agent_decision (decision : String) (followup_count : Nat)
    (max_followups : Nat) (is_last_question : Bool) : DecisionValidation :=
  if !(["followup", "advance", "hint", "end"].contains decision) then
    ⟨false, some "advance", some ("Unknown decision: " ++ decision)⟩
  else if decision == "followup" && followup_count ≥ max_followups then
    ⟨false, some "advance",
      some ("Max followups (" ++ toString max_followups ++ ") reached, forcing advance")⟩
  else if decision == "advance" && is_last_question then
    ⟨false, some "end", some "Last question completed, ending interview"⟩
  else
    ⟨true, none, none⟩

/-- Default `max_followups` of `AgentGuardrails.validate_decision`. -/
def validate_decision_default_max : Nat := 3

/-- `AgentGuardrails.validate_decision` with its signature defaults applied
(`max_followups=3`, `is_last_question=False`). -/
def validate_decision_with_defaults (decision : String) (followup_count : Nat) :
    DecisionValidation :=
  validate_agent_decision decision followup_count validate_decision_default_max false

end AgentGuardrails

/-! ## selection.py: the content filter -/

namespace Selection

def SENSITIVE_PHRASES : List String :=
  ["leave your current company",
   "leave your current job",
   "why do you want to leave your current company",
   "why do you want to leave your current job"]

/-- `UNSAFE_KEYWORD_PATTERN`: `\b(...)\b` over the alternatives below;
`pregnan\w*` drops the trailing boundary, `birth\s?date` carries an
optional whitespace character. -/
def UNSAFE_KEYWORD_PATTERN : List KPat :=
  [kw "age", kw "married", kw "marital",
   ⟨litToks "pregnan", false⟩,
   kw "children", kw "kids", kw "family planning",
   kw "religion", kw "religious",
   kw "citizenship", kw "nationality", kw "ethnicity",
   kw "race", kw "racial",
   kw "sexual orientation", kw "gender identity", kw "gender",
   kw "political affiliation", kw "disability",
   kw "medical condition", kw "health condition",
   ⟨litToks "birth" ++ [RTok.optWs] ++ litToks "date", true⟩]

/-- selection.py `_is_question_allowed`: filter out boundary-crossing
questions (no allow-list of technical phrases here). -/
def is_question_allowed (question_text : String) : Bool :=
  let normalized := lowerStr question_text
  if SENSITIVE_PHRASES.any (fun phrase => containsSub normalized phrase) then false
  else if searchAny UNSAFE_KEYWORD_PATTERN question_text then false
  else true

end Selection

/-! ## selection.py: scoring and the diversity-constrained sampling loop -/

namespace Selection

/-- A question-bank row as the selection code uses it: id, text and the
decoded `topics_json`. -/
structure SQ where
  id : String
  text : String
  topics : List String
deriving DecidableEq

/-- `_compute_match_score`: topic overlap with the role-profile weights
(exact key match full weight, substring match half weight, normalized by
topic count); 0.5 when either side is empty. -/
def compute_match_score (topics : List String) (topic_weights : List (String × ℚ)) : ℚ :=
  if topics.isEmpty || topic_weights.isEmpty then 1/2
  else
    let score := topics.foldl
      (fun acc topic =>
        let tl := lowerStr topic
        match topic_weights.find? (fun p => p.1 == tl) with
        | some p => acc + p.2
        | none =>
          match topic_weights.find? (fun p => containsSub p.1 tl || containsSub tl p.1) with
          | some p => acc + p.2 * (1/2)
          | none => acc)
      0
    score / (max 1 topics.length : ℚ)

def TECHNICAL_TOPICS : List String :=
  ["algorithms", "data structures", "system design", "coding", "architecture",
   "databases", "api", "performance", "scalability", "testing", "debugging",
   "security", "networking", "distributed systems", "concurrency", "optimization",
   "design patterns", "oop", "functional programming", "sql", "nosql", "cache",
   "microservices", "rest", "graphql", "devops", "ci/cd", "cloud", "aws", "azure",
   "docker", "kubernetes", "linux", "git", "python", "javascript", "java", "c++",
   "react", "node", "machine learning", "ai", "data science"]

def PERSONAL_TOPICS : List String :=
  ["teamwork", "leadership", "communication", "motivation", "career", "goals",
   "conflict", "collaboration", "management", "mentorship", "culture", "values",
   "work-life", "growth", "learning", "feedback", "challenges", "achievements",
   "strengths", "weaknesses", "failure", "success", "stress", "pressure",
   "decision making", "problem solving", "creativity", "innovation", "initiative",
   "adaptability", "flexibility", "priorities", "time management", "organization",
   "remote work", "travel", "relocation", "salary", "benefits", "passion"]

/-- `_compute_style_weights`: linear interpolation of the technical and
personal boost factors along the 0-100 style slider. -/
def compute_style_weights (question_style : ℚ) : ℚ × ℚ :=
  let styleFrac := question_style / 100
  (2 - (17/10) * styleFrac, 3/10 + (17/10) * styleFrac)

/-- `_get_topic_style_score`: multiplier adjusting the base match score by
the technical/personal composition of the topics, floored at 0.1. -/
def get_topic_style_score (topics : List String) (style_weights : ℚ × ℚ) : ℚ :=
  if topics.isEmpty then 1
  else
    let technicalCount := (topics.filter
      (fun topic =>
        let tl := lowerStr topic
        TECHNICAL_TOPICS.any (fun t => containsSub tl t || containsSub t tl))).length
    let personalCount := (topics.filter
      (fun topic =>
        let tl := lowerStr topic
        PERSONAL_TOPICS.any (fun t => containsSub tl t || containsSub t tl))).length
    let total := topics.length
    let techFrac : ℚ := technicalCount / (total : ℚ)
    let persFrac : ℚ := personalCount / (total : ℚ)
    let multiplier := 1 + techFrac * (style_weights.1 - 1) + persFrac * (style_weights.2 - 1)
    max (1/10) multiplier

/-- `set(json.loads(q.topics_json))`: the topic set of a question. -/
def topicSet (q : SQ) : Finset String :=
  q.topics.toFinset

/-- Topic-set Jaccard similarity (`intersection / union if union > 0 else 0.0`). -/
def jaccardQ (a b : Finset String) : ℚ :=
  let u := (a ∪ b).card
  if u = 0 then 0 else ((a ∩ b).card : ℚ) / (u : ℚ)

/-- `max_overlap`: fold of `max` over the already-selected topic sets,
starting from 0.0. -/
def maxOverlap (t : Finset String) (prevs : List (Finset String)) : ℚ :=
  prevs.foldl (fun m p => max m (jaccardQ t p)) 0

/-- The `while` body of `_select_questions`, with a fuel argument as the
termination device (each pass either erases the rejected candidate from
the pool or grows the selection, so `pool.length + num + 1` fuel is more
than the loop can consume).  `pick` is the oracle for the
`random.choices(remaining, weights=[s**2 ...])` / `random.choice` draw;
the weights are computed exactly as in the source and the drawn index is
reduced modulo the live pool size. -/
def selectLoop (pick : Nat → Nat) (num : Nat) :
    Nat → List (SQ × ℚ) → List String → List SQ → List (Finset String) → Nat → List SQ
  | 0, _, _, selected, _, _ => selected
  | fuel + 1, pool, usedIds, selected, selTopics, step =>
    if selected.length < num && !pool.isEmpty then
      let remaining := pool.filter (fun p => !(usedIds.contains p.1.id))
      if h : remaining.length = 0 then selected
      else
        let weights := remaining.map (fun p => p.2 ^ 2)
        -- `random.choices(...)` when the weight total is positive,
        -- `random.choice(...)` otherwise: either way an oracle draw.
        let _ := weights.sum ≤ 0
        let chosen := remaining.get ⟨pick step % remaining.length,
          Nat.mod_lt _ (Nat.pos_of_ne_zero h)⟩
        let chosenTopics := topicSet chosen.1
        let mo := maxOverlap chosenTopics selTopics
        if mo > 7/10 && remaining.length > 1 then
          selectLoop pick num fuel (pool.erase chosen) usedIds selected selTopics (step + 1)
        else
          selectLoop pick num fuel pool (usedIds ++ [chosen.1.id])
            (selected ++ [chosen.1]) (selTopics ++ [chosenTopics]) (step + 1)
    else selected

/-- `_select_questions`: filter exclusions and disallowed questions, score,
sort descending, keep the top 3x pool, then run the diversity loop and
truncate to the requested count.  An empty post-filter pool returns `[]`
(there is no fall-back to the unfiltered pool in the source). -/
def select_questions (pick : Nat → Nat) (bank : List SQ) (num_questions : Nat)
    (topic_weights : List (String × ℚ)) (exclude_ids : List String)
    (style_weights : Option (ℚ × ℚ)) : List SQ :=
  let sw := style_weights.getD (1, 1)
  let candidates := bank.filter
    (fun q => !(exclude_ids.contains q.id) && is_question_allowed q.text)
  if candidates.isEmpty then []
  else
    let scored := candidates.map
      (fun q => (q, compute_match_score q.topics topic_weights *
                    get_topic_style_score q.topics sw))
    let sorted := scored.mergeSort (fun a b => decide (b.2 ≤ a.2))
    let topK := min (num_questions * 3) sorted.length
    let pool := sorted.take topK
    (selectLoop pick num_questions (pool.length + num_questions + 1)
      pool [] [] [] 0).take num_questions

/-- Instrumented twin of `selectLoop`: each accepted pick also records how
many candidates the live pool still offered at the moment of the pick. -/
def selectLoopG (pick : Nat → Nat) (num : Nat) :
    Nat → List (SQ × ℚ) → List String → List (SQ × Nat) → List (Finset String) → Nat →
    List (SQ × Nat)
  | 0, _, _, selected, _, _ => selected
  | fuel + 1, pool, usedIds, selected, selTopics, step =>
    if selected.length < num && !pool.isEmpty then
      let remaining := pool.filter (fun p => !(usedIds.contains p.1.id))
      if h : remaining.length = 0 then selected
      else
        let chosen := remaining.get ⟨pick step % remaining.length,
          Nat.mod_lt _ (Nat.pos_of_ne_zero h)⟩
        let chosenTopics := topicSet chosen.1
        let mo := maxOverlap chosenTopics selTopics
        if mo > 7/10 && remaining.length > 1 then
          selectLoopG pick num fuel (pool.erase chosen) usedIds selected selTopics (step + 1)
        else
          selectLoopG pick num fuel pool (usedIds ++ [chosen.1.id])
            (selected ++ [(chosen.1, remaining.length)]) (selTopics ++ [chosenTopics]) (step + 1)
    else selected

/-- Instrumented twin of `select_questions`. -/
def select_questionsG (pick : Nat → Nat) (bank : List SQ) (num_questions : Nat)
    (topic_weights : List (String × ℚ)) (exclude_ids : List String)
    (style_weights : Option (ℚ × ℚ)) : List (SQ × Nat) :=
  let sw := style_weights.getD (1, 1)
  let candidates := bank.filter
    (fun q => !(exclude_ids.contains q.id) && is_question_allowed q.text)
  if candidates.isEmpty then []
  else
    let scored := candidates.map
      (fun q => (q, compute_match_score q.topics topic_weights *
                    get_topic_style_score q.topics sw))
    let sorted := scored.mergeSort (fun a b => decide (b.2 ≤ a.2))
    let topK := min (num_questions * 3) sorted.length
    let pool := sorted.take topK
    (selectLoopG pick num_questions (pool.length + num_questions + 1)
      pool [] [] [] 0).take num_questions

end Selection

/-! ## llm_client.py -/

/-- The environment a `call_llm` invocation sees: which backends are
configured, what each would return if actually called (`.error` = the call
raises), and the `USE_GROQ_PRIMARY` flag. -/
structure LlmBackends where
  gemini_available : Bool
  groq_available : Bool
  gemini_result : Except String String
  groq_result : Except String String
  use_groq_primary : Bool

/-- `call_llm`: pick a preferred backend, call it if configured, otherwise
call the other if configured, otherwise raise the typed error.  Note that
the branch on a backend only tests availability; the result of an actually
attempted call (including a raised error) is returned as-is. -/
def call_llm (env : LlmBackends) (prefer : Option String) : Except String String :=
  let p := lowerStr (prefer.getD (if env.use_groq_primary then "groq" else "gemini"))
  if p == "groq" then
    if env.groq_available then env.groq_result
    else if env.gemini_available then env.gemini_result
    else .error "No LLM configured. Set GEMINI_API_KEY or GROQ_API_KEY."
  else
    if env.gemini_available then env.gemini_result
    else if env.groq_available then env.groq_result
    else .error "No LLM configured. Set GEMINI_API_KEY or GROQ_API_KEY."

/-! ## code_evaluator.py -/

/-- `evaluate_code`: review code without executing it.  `oracle` stands for
the `call_llm` + fence-stripping + `json.loads` pipeline inside the `try`
block (`.ok d` iff all of it succeeded, yielding the parsed dict). -/
def evaluate_code (oracle : Except String JDict) (code : Option String) : JDict :=
  if !(optTruthy code) then
    [("score", .null), ("strengths", .arr []), ("issues", .arr []),
     ("complexity", .null), ("followup_type", .null)]
  else
    match oracle with
    | .ok d =>
      [("score", (dget d "score").getD .null),
       ("strengths", if jTruthy (dget d "strengths") then (dget d "strengths").getD (.arr []) else .arr []),
       ("issues", if jTruthy (dget d "issues") then (dget d "issues").getD (.arr []) else .arr []),
       ("complexity", (dget d "complexity").getD .null),
       ("followup_type", (dget d "followup_type").getD .null)]
    | .error _ =>
      [("score", .n (55/100)),
       ("strengths", .arr ["Code appears to attempt a solution"]),
       ("issues", .arr ["Could not fully evaluate (LLM unavailable)"]),
       ("complexity", .null),
       ("followup_type", .s "clarify")]

/-! ## interview_agent.py: `_fallback_evaluate` -/

/-- `float(result.get("overall", default))`: numbers pass through, booleans
coerce, a missing key yields the default, anything else raises (modelled as
`.error`, landing in the surrounding `except`). -/
def getOverallNum (d : JDict) (dflt : ℚ) : Except String ℚ :=
  match dget d "overall" with
  | none => .ok dflt
  | some (.n v) => .ok v
  | some (.b v) => .ok (if v then 1 else 0)
  | some _ => .error "float conversion failed"

/-- `AgenticInterviewAgent._fallback_evaluate`: direct LLM evaluation when
the reasoning trace produced no score.  On any failure of the evaluation
pipeline a code submission still gets `overall = 0.85`; a verbal answer
gets `None`. -/
def fallback_evaluate (oracle : Except String JDict)
    (user_transcript : Option String) (user_code : Option String) : Option JDict :=
  let hasCode :=
    match user_code with
    | some c => stripTruthy c
    | none => false
  let content := if hasCode then user_code.getD "" else user_transcript.getD ""
  if !(stripTruthy content) then none
  else
    let dflt : ℚ := if hasCode then 85/100 else 6/10
    let onFailure : Option JDict :=
      if hasCode then
        some [("overall", .n (85/100)), ("notes", .arr ["Code submitted - evaluation pending"])]
      else none
    match oracle with
    | .ok d =>
      match getOverallNum d dflt with
      | .ok q => some (dset d "overall" (.n (clamp01 q)))
      | .error _ => onFailure
    | .error _ => onFailure

/-! ## agent_context.py -/

/-- `AgentContext` (the decision-relevant fields; the inferred candidate
profile and the observation log are write-only for the modelled paths and
do not feed back into any decision). -/
structure AgentCtx where
  session_id : String
  question_id : String
  question_text : String
  question_type : String
  question_topics : List String
  user_transcript : String
  user_code : Option String
  question_index : Nat
  total_questions : Nat
  followup_count : Nat
  max_followups : Nat
  previous_followups : List String
  persona : String
  language : String
deriving DecidableEq

/-- `AgentContext.should_force_advance`. -/
def should_force_advance (ctx : AgentCtx) : Bool :=
  ctx.followup_count ≥ ctx.max_followups

/-- `AgentContext.is_last_question` (`question_index >= total_questions - 1`;
Python's `-1` at `total_questions = 0` and truncated subtraction agree here
because `question_index` is non-negative). -/
def is_last_question (ctx : AgentCtx) : Bool :=
  ctx.question_index ≥ ctx.total_questions - 1

/-- `build_context_from_request`, with the request/state objects flattened
into their used fields.  `max_followups` is not among the constructor
arguments in the source, so the dataclass default `2` always applies. -/
def build_context_from_request (session_id : String) (question_id : String)
    (question_text : String) (question_type : String) (topics : List String)
    (user_transcript : Option String) (user_code : Option String)
    (plan_len : Nat) (state_question_index : Nat) (state_followup_count : Nat)
    (state_previous_followups : List String)
    (persona : String) (language : String) : AgentCtx :=
  { session_id := session_id
    question_id := question_id
    question_text := question_text
    question_type := question_type
    question_topics := topics
    user_transcript := user_transcript.getD ""
    user_code := user_code
    question_index := state_question_index
    total_questions := plan_len
    followup_count := state_followup_count
    max_followups := 2
    previous_followups := state_previous_followups
    persona := persona
    language := language }

/-! ## conversation.py -/

/-- `should_continue_conversation` with all arguments explicit. -/
def should_continue_conversation (followup_count : Nat) (satisfaction_level : ℚ)
    (max_followups : Nat) : Bool :=
  if followup_count ≥ max_followups then false
  else if satisfaction_level ≥ 7/10 && followup_count ≥ 1 then false
  else true

/-- The default `max_followups` in `should_continue_conversation`'s
signature. -/
def should_continue_default_max : Nat := 3

/-! ## agent_tools.py -/

/-- `ToolResult`. -/
structure MToolResult where
  success : Bool
  data : JDict
  error : Option String
deriving DecidableEq

/-- Render an argument value where the source uses it as a string (keys of
lookup tables, prompt text). -/
def jvalToStr : JVal → String
  | .s v => v
  | .n v => toString v
  | .b v => toString v
  | .null => "None"
  | .arr v => String.intercalate ", " v

def argStr (args : JDict) (k : String) : String :=
  jvalToStr ((dget args k).getD .null)

/-- `execute_respond_to_candidate`: on any failure of the LLM/parse pipeline
it still reports success with a canned response for the requested type. -/
def execute_respond_to_candidate (oracle : Except String JDict)
    (response_type : String) : MToolResult :=
  match oracle with
  | .ok d => ⟨true, d, none⟩
  | .error e =>
    let fallback :=
      if response_type == "acknowledge" then "I hear you."
      else if response_type == "transition" then "Let\x27s move on to the next topic."
      else if response_type == "feedback" then "Thanks for that response."
      else if response_type == "clarify" then "Could you tell me more about that?"
      else "I see."
    ⟨true, [("response", .s fallback)], some e⟩

/-- `execute_analyze_answer`. -/
def execute_analyze_answer (oracle : Except String JDict) : MToolResult :=
  match oracle with
  | .ok d => ⟨true, d, none⟩
  | .error e =>
    ⟨false,
     [("score", .n (1/2)), ("strengths", .arr []), ("gaps", .arr []),
      ("needs_followup", .b false)], some e⟩

/-- `execute_evaluate_code` (the agent tool, distinct from
`code_evaluator.evaluate_code`). -/
def execute_evaluate_code (oracle : Except String JDict) : MToolResult :=
  match oracle with
  | .ok d => ⟨true, d, none⟩
  | .error e =>
    ⟨false,
     [("score", .n (1/2)), ("correctness", .n (1/2)), ("issues", .arr []),
      ("needs_followup", .b false)], some e⟩

/-- `execute_ask_followup`: the generated question must pass the guardrail
content filter, and an empty or filtered-out question is a failure. -/
def execute_ask_followup (oracle : Except String JDict) : MToolResult :=
  match oracle with
  | .ok d =>
    let question := getStrD d "followup_question" ""
    let filtered := AgentGuardrails.filter_question question
    if optTruthy filtered then
      ⟨true, dset d "followup_question" (.s (filtered.getD "")), none⟩
    else
      ⟨false, [("followup_question", .null)], some "Question failed guardrails"⟩
  | .error e => ⟨false, [("followup_question", .null)], some e⟩

/-- `execute_give_hint`. -/
def execute_give_hint (oracle : Except String JDict) : MToolResult :=
  match oracle with
  | .ok d => ⟨true, d, none⟩
  | .error e =>
    ⟨false, [("hint", .s "Think about the core concept here.")], some e⟩

/-- `execute_advance_to_next`: purely local, no LLM call. -/
def execute_advance_to_next (reason : String) (satisfaction_score : JVal)
    (brief_feedback : Option String) : MToolResult :=
  ⟨true,
   [("action", .s "advance"), ("reason", .s reason),
    ("satisfaction_score", satisfaction_score),
    ("feedback", .s (match brief_feedback with
                     | some f => if f.isEmpty then "Good, let\x27s move on." else f
                     | none => "Good, let\x27s move on."))], none⟩

/-- `execute_end_interview`: purely local, no LLM call. -/
def execute_end_interview (reason : String) (closing_message : Option String) : MToolResult :=
  ⟨true,
   [("action", .s "end"), ("reason", .s reason),
    ("closing_message", .s (match closing_message with
                            | some c => if c.isEmpty then "Thank you for your time today. We\x27ll be in touch soon." else c
                            | none => "Thank you for your time today. We\x27ll be in touch soon."))], none⟩

/-- The keys of `TOOL_IMPLEMENTATIONS`. -/
def TOOL_IMPLEMENTATION_NAMES : List String :=
  ["respond_to_candidate", "analyze_answer", "evaluate_code", "ask_followup",
   "give_hint", "advance_to_next", "end_interview"]

/-- Required (non-defaulted, non-`**kwargs`) parameters of each tool
implementation; `impl(**tool_args)` raises `TypeError` when one is missing,
and that exception is what `execute_tool`'s `except` catches. -/
def requiredParams : String → List String
  | "respond_to_candidate" => ["response_type", "candidate_said", "tone"]
  | "analyze_answer" => ["answer_text", "question_context"]
  | "evaluate_code" => ["code", "question"]
  | "ask_followup" => ["followup_type", "focus_area", "context"]
  | "give_hint" => ["hint_level", "topic_area", "question_context"]
  | "advance_to_next" => ["reason", "satisfaction_score"]
  | "end_interview" => ["reason"]
  | _ => []

def optStrArg (args : JDict) (k : String) : Option String :=
  match dget args k with
  | some (.s v) => some v
  | _ => none

/-- The body of `execute_tool`'s `try` block: bind `**tool_args` (a missing
required parameter raises) and run the implementation.  The implementations
themselves catch their own internal exceptions, so once binding succeeds the
dispatch is failure-free. -/
def execute_tool_uncaught (oracle : Except String JDict) (tool_name : String)
    (tool_args : JDict) : Except String MToolResult :=
  if !((requiredParams tool_name).all (fun k => (dget tool_args k).isSome)) then
    .error ("missing a required argument of " ++ tool_name ++ "()")
  else
    .ok (if tool_name == "respond_to_candidate" then
           execute_respond_to_candidate oracle (argStr tool_args "response_type")
         else if tool_name == "analyze_answer" then
           execute_analyze_answer oracle
         else if tool_name == "evaluate_code" then
           execute_evaluate_code oracle
         else if tool_name == "ask_followup" then
           execute_ask_followup oracle
         else if tool_name == "give_hint" then
           execute_give_hint oracle
         else if tool_name == "advance_to_next" then
           execute_advance_to_next (argStr tool_args "reason")
             ((dget tool_args "satisfaction_score").getD .null)
             (optStrArg tool_args "brief_feedback")
         else
           execute_end_interview (argStr tool_args "reason")
             (optStrArg tool_args "closing_message"))

/-- `execute_tool`: unknown names short-circuit to a failure result, and any
exception out of the dispatch is caught and returned as a failure result. -/
def execute_tool (oracle : Except String JDict) (tool_name : String)
    (tool_args : JDict) : MToolResult :=
  if !(TOOL_IMPLEMENTATION_NAMES.contains tool_name) then
    ⟨false, [], some ("Unknown tool: " ++ tool_name)⟩
  else
    match execute_tool_uncaught oracle tool_name tool_args with
    | .ok r => r
    | .error e => ⟨false, [], some ("Tool execution error: " ++ e)⟩

/-! ## agent_reasoning.py -/

/-- A tool call returned by the reasoning backend. -/
structure MToolCall where
  name : String
  args : JDict
deriving DecidableEq

/-- `AgentResponse` from `generate_with_tools` (a `None` tool-call list and
an empty one behave identically through `has_tool_calls`). -/
structure GenResp where
  text : Option String
  toolCalls : List MToolCall
deriving DecidableEq

/-- `AgentDecision` (the reasoning trace is audit-only and omitted). -/
structure Decision where
  action : String
  message : String
  followup_question : Option String
  satisfaction_score : ℚ
deriving DecidableEq

/-- Everything external a single `AgentReasoningLoop.run` invocation can
observe: the pytest short-circuit flag, the `GROQ_API_KEY` presence, the
per-iteration `generate_with_tools` outcome, the per-(iteration, call)
`execute_tool` outcome, and the outcome of each `call_llm`-plus-parse site
in the fallback helpers (`.error` = that site raised). -/
structure RunEnv where
  testMode : Bool
  groqKey : Bool
  gen : Nat → Except String GenResp
  toolRes : Nat → Nat → MToolResult
  testLlm : Except String String
  gfCodeEval : Except String ℚ
  gfAnswerEval : Except String (ℚ × Bool)
  gfMsg : Except String String
  gfAck : Except String String
  gfFollowup : Except String String
  randAckIdx : Nat
  randFollowupIdx : Nat
  fbCodeEval : Except String ℚ
  fbMsg : Except String String
  ifrMsg : Except String String

/-- `s.strip('"')`. -/
def stripQuotes (s : String) : String :=
  ⟨((s.data.dropWhile (fun c => c == '"')).reverse.dropWhile (fun c => c == '"')).reverse⟩

/-- `random.choice(l)`, drawn through the oracle index. -/
def pickFrom (l : List String) (i : Nat) : String :=
  l.getD (i % l.length) ""

/-- `latest.get("score", dflt) if latest else dflt`. -/
def analysisScore (a : Option JDict) (dflt : ℚ) : ℚ :=
  match a with
  | some d => getNumD d "score" dflt
  | none => dflt

/-- The `latest_analysis` / `latest_code_analysis` / literal-default score
cascade used by the `advance_to_next` and `end_interview` branches. -/
def scoreFrom (la lc : Option JDict) (dflt : ℚ) : ℚ :=
  match la with
  | some d => getNumD d "score" dflt
  | none =>
    match lc with
    | some d => getNumD d "score" dflt
    | none => dflt

def isHebrew (language : String) : Bool :=
  lowerStr language == "hebrew"

/-- The shared acknowledgement-plus-follow-up tail of
`_groq_followup_fallback` (reached when no earlier branch returned). -/
def groq_fallback_followup (env : RunEnv) (heb : Bool) : Decision :=
  let acknowledgement :=
    match env.gfAck with
    | .ok m => takeChars 200 m.trim
    | .error _ =>
      if heb then
        pickFrom ["הבנתי, תודה.", "אוקיי, הבנתי.", "תודה על התשובה.", "רשמתי את הדברים."]
          env.randAckIdx
      else
        pickFrom ["Thank you for that.", "Understood.", "I see.", "Thanks for sharing that.",
          "Got it."] env.randAckIdx
  let followup :=
    match env.gfFollowup with
    | .ok raw =>
      let f := takeChars 300 (stripQuotes raw.trim).trim
      if !(strTruthy f) || !(endsWithStr f "?") then
        (if heb then "תוכל להרחיב על זה?" else "Can you elaborate on that?")
      else f
    | .error _ =>
      if heb then
        pickFrom ["תוכל לפרט קצת יותר?", "האם תוכל להרחיב על הנקודה הזו?",
          "ספר לי עוד על הגישה שלך כאן."] env.randFollowupIdx
      else
        pickFrom ["Can you tell me more about that?", "Could you elaborate on your approach?",
          "Please explain that in more detail."] env.randFollowupIdx
  ⟨"followup", acknowledgement, some followup, 1/2⟩

/-- `AgentReasoningLoop._groq_followup_fallback`: `None` without a Groq key;
otherwise a code submission is evaluated (0.85 on evaluation failure) and
advanced, an exhausted follow-up budget advances, a substantial answer may
advance on its evaluation, and everything else produces a follow-up. -/
def groq_followup_fallback (env : RunEnv) (ctx : AgentCtx) : Option Decision :=
  if !env.groqKey then none
  else
    let candidateAnswer :=
      if strTruthy ctx.user_transcript then takeChars 300 ctx.user_transcript else ""
    let userCode := ctx.user_code.getD ""
    let heb := isHebrew ctx.language
    if stripTruthy userCode then
      let score := match env.gfCodeEval with
        | .ok q => clamp01 q
        | .error _ => 85/100
      let message := match env.gfMsg with
        | .ok m => takeChars 250 m.trim
        | .error _ => if heb then "נראה טוב. בוא נמשיך." else "That looks good. Let\x27s continue."
      some ⟨"advance", message, none, score⟩
    else if should_force_advance ctx then
      let message := match env.gfMsg with
        | .ok m => takeChars 200 m.trim
        | .error _ =>
          if heb then "תודה על התשובות המפורטות. בוא נמשיך לנושא הבא."
          else "Thank you for your detailed responses. Let\x27s move on to the next topic."
      some ⟨"advance", message, none, 6/10⟩
    else if strTruthy candidateAnswer && candidateAnswer.trim.length > 100 then
      let (score, shouldFollowup) := match env.gfAnswerEval with
        | .ok p => p
        | .error _ => (6/10, false)
      if !shouldFollowup || score ≥ 7/10 then
        let message := match env.gfMsg with
          | .ok m => takeChars 200 m.trim
          | .error _ => if heb then "תשובה טובה. בוא נמשיך." else "Good answer. Let\x27s move on."
        some ⟨"advance", message, none, score⟩
      else some (groq_fallback_followup env heb)
    else some (groq_fallback_followup env heb)

/-- `AgentReasoningLoop._fallback_decision`: evaluate submitted code first
(0.85 on evaluation failure, otherwise 0.6 without code), then advance,
end (only on the last question) or advance, never raising — the message
generation's own failure only swaps in a hard-coded message. -/
def fallback_decision (env : RunEnv) (ctx : AgentCtx) : Decision :=
  let userCode := ctx.user_code.getD ""
  let score :=
    if stripTruthy userCode then
      match env.fbCodeEval with
      | .ok q => clamp01 q
      | .error _ => 85/100
    else 6/10
  if should_force_advance ctx then
    let message := match env.fbMsg with
      | .ok m =>
        let mm := takeChars 200 m.trim
        if mm.isEmpty then "Thank you for that detailed response. Let\x27s move to the next topic." else mm
      | .error _ => "Thank you for those responses. Let\x27s move forward."
    ⟨"advance", message, none, score⟩
  else if is_last_question ctx then
    let message := match env.fbMsg with
      | .ok m =>
        let mm := takeChars 200 m.trim
        if mm.isEmpty then "Thank you for taking the time to participate in this interview." else mm
      | .error _ => "Thank you for your time today."
    ⟨"end", message, none, score⟩
  else
    let message := match env.fbMsg with
      | .ok m =>
        let mm := takeChars 200 m.trim
        if mm.isEmpty then "Excellent. Now let\x27s move on to the next question." else mm
      | .error _ => "Let\x27s continue to the next question."
    ⟨"advance", message, none, score⟩

/-- `AgentReasoningLoop._interpret_final_response`: keyword heuristics over
a text-only backend reply. -/
def interpret_final_response (env : RunEnv) (text : String) (analysis : Option JDict) :
    Decision :=
  let tl := lowerStr text
  if containsSub tl "next question" || containsSub tl "move on" then
    ⟨"advance", takeChars 200 text, none, analysisScore analysis (7/10)⟩
  else if containsSub tl "follow" || containsSub tl "clarify" then
    ⟨"followup", "",
      (if containsSub text "?" then some (takeChars 300 text) else none),
      analysisScore analysis (1/2)⟩
  else
    let message := match env.ifrMsg with
      | .ok m => takeChars 200 m.trim
      | .error _ => "That\x27s good. Let\x27s move on to the next question."
    ⟨"advance", message, none, 6/10⟩

/-- `AgentReasoningLoop._test_mode_decision` (the pytest short-circuit). -/
def test_mode_decision (env : RunEnv) (ctx : AgentCtx) : Decision :=
  let qIdx := ctx.question_index
  let followups := ctx.followup_count
  if qIdx == 0 && followups == 0 then
    let message := match env.testLlm with
      | .ok m => takeChars 200 m.trim
      | .error _ => "That\x27s a good start. Can you elaborate with a specific example?"
    ⟨"followup", message, some "Can you walk me through a specific example?", 6/10⟩
  else if qIdx == 0 && followups > 0 then
    let message := match env.testLlm with
      | .ok m => takeChars 200 m.trim
      | .error _ => "Great elaboration. Let\x27s move to the next topic."
    ⟨"advance", message, none, 7/10⟩
  else if qIdx ≥ 1 && followups == 0 then
    let message := match env.testLlm with
      | .ok m => takeChars 200 m.trim
      | .error _ => "Good answer. Can you discuss the trade-offs you considered?"
    ⟨"followup", message, some "What trade-offs did you consider?", 6/10⟩
  else
    let message := match env.testLlm with
      | .ok m => takeChars 200 m.trim
      | .error _ => "Thank you for this great conversation. You demonstrated strong technical understanding."
    ⟨"end", message, none, 8/10⟩

/-- The `for tool_call in response.tool_calls` body: track the latest
analysis, code analysis and generated response, and return the terminal
decision of the first terminal tool, if any. -/
def handleToolCalls (env : RunEnv) (ctx : AgentCtx) (iter : Nat) :
    Nat → List MToolCall → Option JDict → Option JDict → Option String →
    Sum Decision (Option JDict × Option JDict × Option String)
  | _, [], la, lc, gr => .inr (la, lc, gr)
  | j, tc :: rest, la, lc, gr =>
    let r := env.toolRes iter j
    let la2 := if tc.name == "analyze_answer" && r.success then some r.data else la
    let lc2 := if tc.name == "evaluate_code" && r.success then some r.data else lc
    let gr2 := if tc.name == "respond_to_candidate" && r.success then
        some (getStrD r.data "response" "") else gr
    if tc.name == "ask_followup" && r.success &&
        strTruthy (getStrD r.data "followup_question" "") then
      .inl ⟨"followup", gr2.getD "",
        some (getStrD r.data "followup_question" ""),
        analysisScore la2 (1/2)⟩
    else if tc.name == "give_hint" && r.success then
      let hint := getStrD r.data "hint" ""
      let full := if optTruthy gr2 then (gr2.getD "") ++ " " ++ hint else hint
      .inl ⟨"hint", full.trim, none, 3/10⟩
    else if tc.name == "advance_to_next" then
      let message := if optTruthy gr2 then gr2.getD "" else getStrD r.data "feedback" ""
      let actualScore :=
        match la2 with
        | some d => getNumD d "score" (1/2)
        | none =>
          match lc2 with
          | some d => getNumD d "score" (1/2)
          | none => getNumD r.data "satisfaction_score" (7/10)
      .inl ⟨"advance", message, none, actualScore⟩
    else if tc.name == "end_interview" then
      if !(is_last_question ctx) then
        let message := if optTruthy gr2 then gr2.getD "" else "Let\x27s continue to the next question."
        .inl ⟨"advance", message, none, scoreFrom la2 lc2 (7/10)⟩
      else
        let message := if optTruthy gr2 then gr2.getD ""
          else getStrD r.data "closing_message" "Thank you for your time."
        .inl ⟨"end", message, none, scoreFrom la2 lc2 (7/10)⟩
    else
      handleToolCalls env ctx iter (j + 1) rest la2 lc2 gr2

def MAX_ITERATIONS : Nat := 5

/-- The `for iteration in range(MAX_ITERATIONS)` loop of
`AgentReasoningLoop.run`; `fuel` counts the remaining iterations and the
fall-off-the-end case is the "max iterations" fallback. -/
def run_loop (env : RunEnv) (ctx : AgentCtx) :
    Nat → Nat → Option JDict → Option JDict → Option String → Decision
  | 0, _, _, _, _ => fallback_decision env ctx
  | fuel + 1, i, la, lc, gr =>
    match env.gen i with
    | .error _ =>
      match groq_followup_fallback env ctx with
      | some d => d
      | none => fallback_decision env ctx
    | .ok resp =>
      if resp.toolCalls.isEmpty then
        interpret_final_response env (resp.text.getD "") la
      else
        match handleToolCalls env ctx i 0 resp.toolCalls la lc gr with
        | .inl d => d
        | .inr (la2, lc2, gr2) => run_loop env ctx fuel (i + 1) la2 lc2 gr2

/-- `AgentReasoningLoop.run`. -/
def run (env : RunEnv) (ctx : AgentCtx) : Decision :=
  if env.testMode then test_mode_decision env ctx
  else run_loop env ctx MAX_ITERATIONS 0 none none none

/-! ## interview_agent.py: `_process_decision` -/

/-- The per-session `conversation_state_json` fields. -/
structure ConvState where
  current_question_id : Option String
  followup_count : Nat
  question_index : Nat
  initial_answer_score : ℚ
  previous_followups : List String
deriving DecidableEq

/-- The observable outcome of `_process_decision`: the API payload fields
that matter here, whether `ended_at` was set, and the saved state. -/
structure ProcOut where
  interviewer_message : String
  followup_question : Option String
  is_done : Bool
  agent_decision : Option String
  ended_at_set : Bool
  new_state : ConvState
deriving DecidableEq

/-- `AgenticInterviewAgent._process_decision`.  The early-`end` safeguard
rewrites the decision to `advance` and falls through to the advance tail;
note there is no corresponding budget check on the `followup` branch. -/
def process_decision (decision : Decision) (question_id : Option String)
    (question_index : Nat) (followup_count : Nat) (previous_followups : List String)
    (plan_len : Nat) (st : ConvState) (language : String) (has_next_question : Bool) :
    ProcOut :=
  if decision.action == "followup" && optTruthy decision.followup_question then
    let fq := decision.followup_question.getD ""
    { interviewer_message := if strTruthy decision.message then decision.message else fq
      followup_question := some fq
      is_done := false
      agent_decision := some "followup"
      ended_at_set := false
      new_state :=
        { st with current_question_id := question_id
                  followup_count := followup_count + 1
                  initial_answer_score := decision.satisfaction_score
                  previous_followups := previous_followups ++ [fq] } }
  else if decision.action == "hint" then
    { interviewer_message := if strTruthy decision.message then decision.message
        else "Let me give you a hint."
      followup_question := none
      is_done := false
      agent_decision := some "hint"
      ended_at_set := false
      new_state := st }
  else
    let dec2 :=
      if decision.action == "end" && question_index < plan_len - 1 then
        { decision with
            action := "advance"
            message := if strTruthy decision.message then decision.message
              else "Let\x27s continue to the next question." }
      else decision
    if dec2.action == "end" then
      { interviewer_message := if strTruthy dec2.message then dec2.message
          else "Thank you for your time today."
        followup_question := none
        is_done := true
        agent_decision := some "end"
        ended_at_set := true
        new_state := st }
    else
      let message :=
        if strTruthy dec2.message then dec2.message
        else if has_next_question then
          (if isHebrew language then "בוא נמשיך לשאלה הבאה." else "Let\x27s move to the next question.")
        else
          (if isHebrew language then "מצוין! בוא נמשיך." else "Great! Let\x27s continue.")
      { interviewer_message := message
        followup_question := none
        is_done := question_index + 1 ≥ plan_len
        agent_decision := some dec2.action
        ended_at_set := false
        new_state :=
          { st with question_index := question_index + 1
                    followup_count := 0
                    previous_followups := [] } }

/-! ## Helper lemmas -/

theorem strTruthy_of_stripTruthy {s : String} (h : stripTruthy s = true) :
    strTruthy s = true := by
  unfold stripTruthy at h
  unfold strTruthy
  cases hd : s.data with
  | nil => rw [hd] at h; simp at h
  | cons c cs => simp [hd]

/-! ## Claim theorems -/

/-- **C9.** Every context built by `build_context_from_request` carries the
dataclass default `max_followups = 2` (the constructor call never passes the
field), so `should_force_advance` holds exactly when the stored
`followup_count` reaches 2; the legacy conversation policy and the guardrail
decision validator instead default their follow-up budget to 3. -/
theorem agentic_budget_two_legacy_three
    (sid qid qtext qtype : String) (topics : List String)
    (tr code : Option String) (planLen sqi sfc : Nat) (pf : List String)
    (persona lang : String) :
    (build_context_from_request sid qid qtext qtype topics tr code
        planLen sqi sfc pf persona lang).max_followups = 2
    ∧ should_force_advance (build_context_from_request sid qid qtext qtype topics tr code
        planLen sqi sfc pf persona lang) = decide (2 ≤ sfc)
    ∧ should_continue_default_max = 3
    ∧ AgentGuardrails.validate_decision_default_max = 3 := by
  refine ⟨rfl, ?_, rfl, rfl⟩
  simp [should_force_advance, build_context_from_request, ge_iff_le]

/-- **C4 counterexample.** At the concrete input
`(decision="end", followup_count=0, max_followups=3, is_last_question=False)`
the validator returns the decision unchanged as valid: it does **not**
rewrite an early `end` to `advance` (the claimed second forced override is
absent from `validate_agent_decision`). -/
theorem early_end_not_corrected_by_validator :
    AgentGuardrails.validate_agent_decision "end" 0 3 false
      = ⟨true, none, none⟩
    ∧ (AgentGuardrails.validate_agent_decision "end" 0 3 false).corrected_decision
      ≠ some "advance" := by
  constructor
  · rfl
  · intro h
    simp [AgentGuardrails.validate_agent_decision] at h

/-- **C4 (amended).** For every input, `validate_agent_decision` rewrites an
unknown decision to `advance`, rewrites `followup` to `advance` once the
follow-up budget is exhausted, and rewrites `advance` to `end` on the last
question — but it validates an `end` decision unconditionally, so only the
follow-up override matches the Reasoning Loop; the early-`end` override
exists solely in the loop and the turn processor. -/
theorem decision_validator_overrides (d : String) (fc mf : Nat) (last : Bool) :
    ((["followup", "advance", "hint", "end"].contains d = false →
        AgentGuardrails.validate_agent_decision d fc mf last
          = ⟨false, some "advance", some ("Unknown decision: " ++ d)⟩)
    ∧ (d = "followup" → mf ≤ fc →
        AgentGuardrails.validate_agent_decision d fc mf last
          = ⟨false, some "advance",
              some ("Max followups (" ++ toString mf ++ ") reached, forcing advance")⟩)
    ∧ (d = "advance" → last = true →
        AgentGuardrails.validate_agent_decision d fc mf last
          = ⟨false, some "end", some "Last question completed, ending interview"⟩)
    ∧ (d = "end" →
        AgentGuardrails.validate_agent_decision d fc mf last = ⟨true, none, none⟩)) := by
  refine ⟨?_, ?_, ?_, ?_⟩
  · intro h
    unfold AgentGuardrails.validate_agent_decision
    rw [h]
    simp
  · rintro rfl h
    simp [AgentGuardrails.validate_agent_decision, h]
  · rintro rfl h
    simp [AgentGuardrails.validate_agent_decision, h]
  · rintro rfl
    simp [AgentGuardrails.validate_agent_decision]

/-- Witness for `decision_validator_overrides`: the follow-up override fires
at `("followup", 3, 3, False)`. -/
theorem decision_validator_overrides_witness :
    AgentGuardrails.validate_agent_decision "followup" 3 3 false
      = ⟨false, some "advance", some "Max followups (3) reached, forcing advance"⟩ :=
  (decision_validator_overrides "followup" 3 3 false).2.1 rfl (by decide)

/-- A backend environment where the primary (Gemini) is configured but its
call raises, while the secondary (Groq) is configured and would answer. -/
def llmEnvBothConfiguredPrimaryFails : LlmBackends :=
  { gemini_available := true
    groq_available := true
    gemini_result := .error "Gemini API error: 500 internal error"
    groq_result := .ok "fallback reply"
    use_groq_primary := false }

/-- **C3 counterexample.** With both backends configured and the primary
call failing with a non-rate-limit error, `call_llm` propagates the primary
failure and never attempts the configured secondary: the fallback is driven
by availability (API key present), not by call failure. -/
theorem primary_failure_not_retried_on_secondary :
    call_llm llmEnvBothConfiguredPrimaryFails none
      = .error "Gemini API error: 500 internal error"
    ∧ llmEnvBothConfiguredPrimaryFails.groq_available = true
    ∧ llmEnvBothConfiguredPrimaryFails.groq_result = .ok "fallback reply"
    ∧ call_llm llmEnvBothConfiguredPrimaryFails none
      ≠ llmEnvBothConfiguredPrimaryFails.groq_result := by
  refine ⟨rfl, rfl, rfl, ?_⟩
  intro h
  simp [call_llm, llmEnvBothConfiguredPrimaryFails, lowerStr] at h

/-- **C3 (amended).** `call_llm` consults the preferred backend first and
falls over to the other one only when the preferred backend is *not
configured*; whatever the attempted backend returns — including a raised
error — is final.  The typed "No LLM configured" error is raised exactly
when neither backend is configured, and the reasoning loop never lets a
failed `generate_with_tools` call escape: it degrades to the Groq follow-up
fallback when a Groq key exists and to the deterministic heuristic decision
otherwise. -/
theorem llm_fallback_availability_based (env : LlmBackends) (renv : RunEnv)
    (ctx : AgentCtx) (e : String) :
    (env.use_groq_primary = false → env.gemini_available = true →
      call_llm env none = env.gemini_result)
    ∧ (env.use_groq_primary = false → env.gemini_available = false →
        env.groq_available = true → call_llm env none = env.groq_result)
    ∧ (env.gemini_available = false → env.groq_available = false → ∀ prefer,
        call_llm env prefer = .error "No LLM configured. Set GEMINI_API_KEY or GROQ_API_KEY.")
    ∧ (renv.testMode = false → renv.gen 0 = .error e →
        run renv ctx = (groq_followup_fallback renv ctx).getD (fallback_decision renv ctx)) := by
  refine ⟨?_, ?_, ?_, ?_⟩
  · intro hp ha
    simp [call_llm, hp, ha, lowerStr]
  · intro hp ha hb
    simp [call_llm, hp, ha, hb, lowerStr]
  · intro ha hb prefer
    unfold call_llm
    split_ifs <;> simp_all
  · intro ht hg
    unfold run
    rw [ht]
    simp only [Bool.false_eq_true, if_false]
    rw [show MAX_ITERATIONS = Nat.succ 4 from rfl]
    simp only [run_loop]
    rw [hg]
    cases groq_followup_fallback renv ctx <;> simp

/-- An inert environment for instantiating universally quantified theorems:
every external call fails and no Groq key is configured. -/
def noopRunEnv : RunEnv :=
  { testMode := false
    groqKey := false
    gen := fun _ => .error "unavailable"
    toolRes := fun _ _ => ⟨false, [], some "unavailable"⟩
    testLlm := .error "unavailable"
    gfCodeEval := .error "unavailable"
    gfAnswerEval := .error "unavailable"
    gfMsg := .error "unavailable"
    gfAck := .error "unavailable"
    gfFollowup := .error "unavailable"
    randAckIdx := 0
    randFollowupIdx := 0
    fbCodeEval := .error "unavailable"
    fbMsg := .error "unavailable"
    ifrMsg := .error "unavailable" }

/-- A minimal three-question context sitting on the first slot. -/
def slotZeroCtx : AgentCtx :=
  build_context_from_request "s1" "q1" "Tell me about your current project" "open" []
    (some "I built a service") none 3 0 0 [] "friendly" "english"

/-- Witness for `llm_fallback_availability_based`: with neither backend
configured the typed error is raised, and with the generator failing and no
Groq key the loop lands in the deterministic heuristic decision. -/
theorem llm_fallback_availability_based_witness :
    call_llm ⟨false, false, .error "x", .error "x", false⟩ none
      = .error "No LLM configured. Set GEMINI_API_KEY or GROQ_API_KEY."
    ∧ run noopRunEnv slotZeroCtx
      = (groq_followup_fallback noopRunEnv slotZeroCtx).getD
          (fallback_decision noopRunEnv slotZeroCtx) :=
  ⟨(llm_fallback_availability_based ⟨false, false, .error "x", .error "x", false⟩
      noopRunEnv slotZeroCtx "unavailable").2.2.1 rfl rfl none,
   (llm_fallback_availability_based ⟨false, false, .error "x", .error "x", false⟩
      noopRunEnv slotZeroCtx "unavailable").2.2.2 rfl rfl⟩

/-- **C10.** `execute_tool` is total: it always yields a `ToolResult`.  An
unknown tool name yields `success=False` with an `Unknown tool` error
without touching any implementation; any exception escaping the dispatch
(in practice the `TypeError` from binding `**tool_args` against a missing
required parameter — the implementations catch their own internal
failures) is caught and returned as a `success=False` result carrying the
error text; and a normally returned implementation result is passed
through unchanged.  A single tool execution therefore can never abort the
reasoning loop's turn. -/
theorem execute_tool_total (oracle : Except String JDict) (tool_name : String)
    (tool_args : JDict) :
    (∃ res : MToolResult, execute_tool oracle tool_name tool_args = res)
    ∧ (TOOL_IMPLEMENTATION_NAMES.contains tool_name = false →
        execute_tool oracle tool_name tool_args
          = ⟨false, [], some ("Unknown tool: " ++ tool_name)⟩)
    ∧ (∀ e, TOOL_IMPLEMENTATION_NAMES.contains tool_name = true →
        execute_tool_uncaught oracle tool_name tool_args = .error e →
        execute_tool oracle tool_name tool_args
          = ⟨false, [], some ("Tool execution error: " ++ e)⟩)
    ∧ (∀ r, TOOL_IMPLEMENTATION_NAMES.contains tool_name = true →
        execute_tool_uncaught oracle tool_name tool_args = .ok r →
        execute_tool oracle tool_name tool_args = r) := by
  refine ⟨⟨execute_tool oracle tool_name tool_args, rfl⟩, ?_, ?_, ?_⟩
  · intro h
    unfold execute_tool
    rw [h]
    simp
  · intro e hmem hunc
    unfold execute_tool
    rw [hmem, hunc]
    simp
  · intro r hmem hunc
    unfold execute_tool
    rw [hmem, hunc]
    simp

/-- Witness for `execute_tool_total`: an unknown tool name and a missing
required argument both come back as failure results. -/
theorem execute_tool_total_witness :
    execute_tool (.ok []) "bogus_tool" [] = ⟨false, [], some "Unknown tool: bogus_tool"⟩
    ∧ execute_tool (.ok []) "analyze_answer" []
      = ⟨false, [],
          some "Tool execution error: missing a required argument of analyze_answer()"⟩ :=
  ⟨(execute_tool_total (.ok []) "bogus_tool" []).2.1 rfl,
   (execute_tool_total (.ok []) "analyze_answer" []).2.2.1
     "missing a required argument of analyze_answer()" rfl rfl⟩

/-- A one-question bank whose single (content-allowed) question was asked
recently, so the exclusion filter empties the pool. -/
def recencyExcludedBank : List Selection.SQ :=
  [⟨"q1", "Explain database indexing", ["databases"]⟩]

/-- **C6 counterexample.** The question bank is non-empty and its question
passes the content filter, yet excluding it as recently asked makes
`_select_questions` return the empty selection: there is no fall-back to
the full unfiltered pool anywhere in the selection path. -/
theorem exclusion_empties_selection :
    Selection.select_questions (fun _ => 0) recencyExcludedBank 1 [] ["q1"] none = []
    ∧ recencyExcludedBank ≠ []
    ∧ Selection.is_question_allowed "Explain database indexing" = true := by
  refine ⟨rfl, ?_, by decide⟩
  intro h
  simp [recencyExcludedBank] at h

/-- **C6 (amended).** When every bank question is either excluded as
recently asked or rejected by the content filter, `_select_questions`
returns the empty list — selection does not fall back to the unfiltered
pool, so the section simply contributes no plan items (the only error
`build_interview_plan` raises itself is a missing job spec; an empty plan
is returned to the caller as-is and is not retried internally). -/
theorem empty_filtered_pool_returns_empty (pick : Nat → Nat)
    (bank : List Selection.SQ) (num : Nat) (w : List (String × ℚ))
    (ex : List String) (sw : Option (ℚ × ℚ)) :
    (∀ q ∈ bank, q.id ∈ ex ∨ Selection.is_question_allowed q.text = false) →
    Selection.select_questions pick bank num w ex sw = [] := by
  intro h
  unfold Selection.select_questions
  have hfil : bank.filter
      (fun q => !(ex.contains q.id) && Selection.is_question_allowed q.text) = [] := by
    rw [List.filter_eq_nil_iff]
    intro q hq
    rcases h q hq with hid | hallow
    · simp [hid]
    · simp [hallow]
  rw [hfil]
  simp

/-- Witness for `empty_filtered_pool_returns_empty` at the concrete
recently-excluded bank. -/
theorem empty_filtered_pool_returns_empty_witness :
    Selection.select_questions (fun _ => 7) recencyExcludedBank 2 [("databases", 1)] ["q1"] none
      = [] := by
  refine empty_filtered_pool_returns_empty (fun _ => 7) recencyExcludedBank 2
    [("databases", 1)] ["q1"] none ?_
  intro q hq
  left
  simp [recencyExcludedBank] at hq
  simp [hq]

/-- **C8 counterexample.** The same "race condition" question passes the
agent guardrail filter (its allow-list exempts the phrase) but is rejected
by the plan-selection filter, whose unsafe-keyword pattern matches the
word `race` and which has no allow-list — so it is false that every
question-filtering point lets "race condition" text through. -/
theorem race_condition_rejected_by_selection_filter :
    AgentGuardrails.is_question_allowed
      "How would you debug a race condition in production?" = true
    ∧ Selection.is_question_allowed
      "How would you debug a race condition in production?" = false := by
  constructor
  · rfl
  · rfl

/-- **C8 (amended).** The guardrail content filter rejects question text
matching its protected-characteristic denylist unless the text contains an
allow-listed technical phrase, in which case it is always allowed; the
plan-selection filter applies its own denylist with no allow-list, so text
containing "race condition" passes the guardrail filter but is rejected at
the plan-selection filtering point. -/
theorem content_filter_allowlist_asymmetry (s : String) :
    (AgentGuardrails.SAFE_EXCEPTIONS.any (fun exc => containsSub (lowerStr s) exc) = true →
      AgentGuardrails.is_question_allowed s = true)
    ∧ (strTruthy s = true →
        AgentGuardrails.SAFE_EXCEPTIONS.any (fun exc => containsSub (lowerStr s) exc) = false →
        AgentGuardrails.UNSAFE_PATTERNS.any (fun p => searchPat p (lowerStr s).data) = true →
        AgentGuardrails.is_question_allowed s = false)
    ∧ Selection.is_question_allowed
        "Explain how a race condition can corrupt shared state" = false := by
  refine ⟨?_, ?_, rfl⟩
  · intro h
    simp [AgentGuardrails.is_question_allowed, h]
  · intro ht hexc hpat
    simp [AgentGuardrails.is_question_allowed, ht, hexc, hpat]

/-- Witness for `content_filter_allowlist_asymmetry`: the allow-list clause
at a concrete "race condition" question, and the denylist clause at a
concrete protected-characteristic question. -/
theorem content_filter_allowlist_asymmetry_witness :
    AgentGuardrails.is_question_allowed
      "Describe a race condition you fixed" = true
    ∧ AgentGuardrails.is_question_allowed
      "What is your religion?" = false :=
  ⟨(content_filter_allowlist_asymmetry "Describe a race condition you fixed").1 (by decide),
   (content_filter_allowlist_asymmetry "What is your religion?").2.1 (by decide) (by decide)
     (by decide)⟩

/-- **C5 counterexample.** `code_evaluator.evaluate_code` is an evaluation
path in this codebase, and when its backend call fails on a submitted code
answer it defaults the score to 0.55, not 0.85 — so the 0.85 default does
not apply in *every* evaluation-failure path. -/
theorem code_evaluator_unparsable_defaults :
    dget (evaluate_code (.error "Groq API error: 503")
        (some "def two_sum(nums, target): return []")) "score"
      = some (.n (55/100))
    ∧ (55 : ℚ)/100 ≠ 85/100 := by
  constructor
  · rfl
  · norm_num

/-- **C5 (amended).** In the agentic turn-recording paths an unevaluable
code submission does default to a generous 0.85 rather than a neutral 0.5:
`_fallback_evaluate` records `overall = 0.85` whenever its evaluation
pipeline fails on a code answer, and the Groq reasoning fallback scores the
turn 0.85 and advances when its code evaluation fails; the standalone
`code_evaluator.evaluate_code` helper, however, defaults to 0.55 on the
same failure, and the generic `_fallback_decision` keeps the 0.85 score but
ends (rather than advances) when the failure lands on the last plan slot. -/
theorem unevaluable_code_defaults (oracle : Except String JDict)
    (tr : Option String) (c : String) (e e2 : String) (env : RunEnv) (ctx : AgentCtx) :
    (stripTruthy c = true → oracle = .error e →
      fallback_evaluate oracle tr (some c)
        = some [("overall", .n (85/100)),
                ("notes", .arr ["Code submitted - evaluation pending"])])
    ∧ (env.groqKey = true → ctx.user_code = some c → stripTruthy c = true →
        env.gfCodeEval = .error e →
        (groq_followup_fallback env ctx).map Decision.action = some "advance"
        ∧ (groq_followup_fallback env ctx).map Decision.satisfaction_score
            = some (85/100))
    ∧ (ctx.user_code = some c → stripTruthy c = true → env.fbCodeEval = .error e →
        (fallback_decision env ctx).satisfaction_score = 85/100
        ∧ ((fallback_decision env ctx).action = "advance"
            ∨ ((fallback_decision env ctx).action = "end"
                ∧ is_last_question ctx = true)))
    ∧ (strTruthy c = true →
        dget (evaluate_code (.error e2) (some c)) "score" = some (.n (55/100))) := by
  refine ⟨?_, ?_, ?_, ?_⟩
  · intro hc ho
    unfold fallback_evaluate
    rw [ho]
    simp [hc]
  · intro hk huc hc hev
    unfold groq_followup_fallback
    rw [hk, huc]
    simp only [Option.getD_some]
    simp only [hc, hev]
    simp only [Bool.not_true, Bool.false_eq_true, if_false, eq_self_iff_true, if_true]
    constructor
    · rfl
    · rfl
  · intro huc hc hev
    unfold fallback_decision
    rw [huc]
    simp only [Option.getD_some]
    simp only [hc, hev]
    simp only [eq_self_iff_true, if_true]
    constructor
    · split_ifs <;> rfl
    · split_ifs with h1 h2
      · left
        rfl
      · right
        exact ⟨rfl, h2⟩
      · left
        rfl
  · intro hne
    unfold evaluate_code
    have hopt : optTruthy (some c) = true := hne
    rw [hopt]
    rfl

/-- Witness for `unevaluable_code_defaults` at a concrete failing
evaluation of a concrete code submission. -/
theorem unevaluable_code_defaults_witness :
    fallback_evaluate (.error "Groq API error: 503") (some "see my code")
        (some "def two_sum(nums, target): return []")
      = some [("overall", .n (85/100)),
              ("notes", .arr ["Code submitted - evaluation pending"])] :=
  (unevaluable_code_defaults (.error "Groq API error: 503") (some "see my code")
      "def two_sum(nums, target): return []" "Groq API error: 503" "x"
      noopRunEnv slotZeroCtx).1 (by decide) rfl

/-- An environment in which the reasoning backend answers the first
iteration with a successful `ask_followup` tool call (the main tool-call
path), exactly what the loop sees when the model disregards the prompt
note about the exhausted budget. -/
def askFollowupEnv : RunEnv :=
  { noopRunEnv with
      gen := fun i =>
        if i == 0 then .ok ⟨none, [⟨"ask_followup", []⟩]⟩
        else .error "unavailable"
      toolRes := fun _ _ =>
        ⟨true, [("followup_question", .s "Can you give a concrete example?")], none⟩ }

/-- A context on slot 0 of 3 whose follow-up budget is already exhausted:
`followup_count = 2 = max_followups`. -/
def budgetExhaustedCtx : AgentCtx :=
  build_context_from_request "s1" "q1" "Tell me about your current project" "open" []
    (some "I built a service") none 3 0 2 ["f1", "f2"] "friendly" "english"

def budgetExhaustedState : ConvState :=
  ⟨some "q1", 2, 0, 6/10, ["f1", "f2"]⟩

/-- **C1 (violation run).** With the follow-up budget exhausted
(`followup_count = max_followups = 2`, so `should_force_advance` holds),
the main tool-call path of the reasoning loop still returns a `followup`
decision — neither `AgentReasoningLoop.run` nor
`AgenticInterviewAgent._process_decision` re-checks the budget on that
path — and processing the decision records `followup_count = 3`, strictly
above `max_followups`.  The forced `followup`→`advance` override exists
only in the degraded fallback paths and in the (never invoked)
`validate_agent_decision` guardrail. -/
theorem followup_budget_overrun_at_concrete_run :
    should_force_advance budgetExhaustedCtx = true
    ∧ budgetExhaustedCtx.max_followups = 2
    ∧ (run askFollowupEnv budgetExhaustedCtx).action = "followup"
    ∧ (process_decision (run askFollowupEnv budgetExhaustedCtx) (some "q1") 0 2
        ["f1", "f2"] 3 budgetExhaustedState "english" true).agent_decision
        = some "followup"
    ∧ (process_decision (run askFollowupEnv budgetExhaustedCtx) (some "q1") 0 2
        ["f1", "f2"] 3 budgetExhaustedState "english" true).new_state.followup_count
        = 3
    ∧ ¬(3 ≤ budgetExhaustedCtx.max_followups) := by
  refine ⟨rfl, rfl, rfl, rfl, rfl, by decide⟩

theorem fallback_decision_action_end (env : RunEnv) (ctx : AgentCtx)
    (h : (fallback_decision env ctx).action = "end") : is_last_question ctx = true := by
  unfold fallback_decision at h
  split_ifs at h with h1 h2
  · simp at h
  · exact h2
  · simp at h


theorem groq_fallback_action (env : RunEnv) (ctx : AgentCtx) (d : Decision)
    (h : groq_followup_fallback env ctx = some d) :
    d.action = "advance" ∨ d.action = "followup" := by
  unfold groq_followup_fallback at h
  cases hk : env.groqKey
  · simp [hk] at h
  · simp only [hk, Bool.not_true, Bool.false_eq_true, if_false] at h
    cases hcode : stripTruthy (ctx.user_code.getD "")
    case false =>
      simp only [hcode, Bool.false_eq_true, if_false] at h
      cases hf : should_force_advance ctx
      case false =>
        simp only [hf, Bool.false_eq_true, if_false] at h
        split_ifs at h
        all_goals
          first
            | (rw [Option.some.injEq] at h
               subst h
               first
                 | (left; rfl)
                 | (right; rfl))
      case true =>
        simp only [hf, if_true] at h
        rw [Option.some.injEq] at h
        subst h
        left
        rfl
    case true =>
      simp only [hcode, if_true] at h
      rw [Option.some.injEq] at h
      subst h
      left
      rfl

theorem interpret_final_response_action (env : RunEnv) (text : String)
    (analysis : Option JDict) :
    (interpret_final_response env text analysis).action = "advance"
    ∨ (interpret_final_response env text analysis).action = "followup" := by
  simp only [interpret_final_response]
  cases h1 : (containsSub (lowerStr text) "next question" || containsSub (lowerStr text) "move on")
  case true =>
    left
    rfl
  case false =>
    cases h2 : (containsSub (lowerStr text) "follow" || containsSub (lowerStr text) "clarify")
    case true =>
      right
      rfl
    case false =>
      left
      rfl

theorem handleToolCalls_end (env : RunEnv) (ctx : AgentCtx) (iter : Nat) :
    ∀ (tcs : List MToolCall) (j : Nat) (la lc : Option JDict) (gr : Option String)
      (d : Decision),
      handleToolCalls env ctx iter j tcs la lc gr = .inl d →
      d.action = "end" → is_last_question ctx = true := by
  intro tcs
  induction tcs with
  | nil =>
    intro j la lc gr d h
    simp [handleToolCalls] at h
  | cons tc rest ih =>
    intro j la lc gr d h hd
    unfold handleToolCalls at h
    cases h1 : (tc.name == "ask_followup" && (env.toolRes iter j).success &&
        strTruthy (getStrD (env.toolRes iter j).data "followup_question" ""))
    case true =>
      simp only [h1, if_true] at h
      rw [Sum.inl.injEq] at h
      subst h
      simp at hd
    case false =>
      simp only [h1, Bool.false_eq_true, if_false] at h
      cases h2 : (tc.name == "give_hint" && (env.toolRes iter j).success)
      case true =>
        simp only [h2, if_true] at h
        rw [Sum.inl.injEq] at h
        subst h
        simp at hd
      case false =>
        simp only [h2, Bool.false_eq_true, if_false] at h
        cases h3 : (tc.name == "advance_to_next")
        case true =>
          simp only [h3, if_true] at h
          rw [Sum.inl.injEq] at h
          subst h
          simp at hd
        case false =>
          simp only [h3, Bool.false_eq_true, if_false] at h
          cases h4 : (tc.name == "end_interview")
          case true =>
            simp only [h4, if_true] at h
            cases h5 : (!is_last_question ctx)
            case true =>
              simp only [h5, if_true] at h
              rw [Sum.inl.injEq] at h
              subst h
              simp at hd
            case false =>
              simpa using h5
          case false =>
            simp only [h4, Bool.false_eq_true, if_false] at h
            exact ih _ _ _ _ d h hd

theorem run_loop_action_end (env : RunEnv) (ctx : AgentCtx) :
    ∀ (fuel i : Nat) (la lc : Option JDict) (gr : Option String),
      (run_loop env ctx fuel i la lc gr).action = "end" →
      is_last_question ctx = true := by
  intro fuel
  induction fuel with
  | zero =>
    intro i la lc gr h
    exact fallback_decision_action_end env ctx h
  | succ n ih =>
    intro i la lc gr h
    unfold run_loop at h
    cases hg : env.gen i with
    | error e =>
      rw [hg] at h
      cases hq : groq_followup_fallback env ctx with
      | some d2 =>
        have h2 : d2.action = "end" := by
          rw [hq] at h
          exact h
        rcases groq_fallback_action env ctx d2 hq with h1 | h1 <;>
          (rw [h2] at h1; simp at h1)
      | none =>
        have h2 : (fallback_decision env ctx).action = "end" := by
          rw [hq] at h
          exact h
        exact fallback_decision_action_end env ctx h2
    | ok resp =>
      rw [hg] at h
      have h2 : (if resp.toolCalls.isEmpty = true
          then interpret_final_response env (resp.text.getD "") la
          else match handleToolCalls env ctx i 0 resp.toolCalls la lc gr with
               | .inl d => d
               | .inr (la2, lc2, gr2) => run_loop env ctx n (i + 1) la2 lc2 gr2).action
          = "end" := h
      by_cases hb : resp.toolCalls.isEmpty = true
      · rw [if_pos hb] at h2
        rcases interpret_final_response_action env (resp.text.getD "") la with h1 | h1 <;>
          (rw [h2] at h1; simp at h1)
      · rw [if_neg hb] at h2
        cases hh : handleToolCalls env ctx i 0 resp.toolCalls la lc gr with
        | inl d2 =>
          rw [hh] at h2
          exact handleToolCalls_end env ctx i resp.toolCalls 0 la lc gr d2 hh h2
        | inr tr =>
          rw [hh] at h2
          obtain ⟨la2, lc2, gr2⟩ := tr
          exact ih (i + 1) la2 lc2 gr2 h2


theorem pd_end_branch (dec : Decision) (qid : Option String) (qi fc : Nat)
    (pf : List String) (planLen : Nat) (st : ConvState) (lang : String) (hnq : Bool)
    (h1 : dec.action = "end") (h2 : ¬(qi < planLen - 1)) :
    process_decision dec qid qi fc pf planLen st lang hnq
      = { interviewer_message :=
            if strTruthy dec.message = true then dec.message else "Thank you for your time today."
          followup_question := none
          is_done := true
          agent_decision := some "end"
          ended_at_set := true
          new_state := st } := by
  simp [process_decision, h1, h2]

theorem pd_early_end (dec : Decision) (qid : Option String) (qi fc : Nat)
    (pf : List String) (planLen : Nat) (st : ConvState) (lang : String) (hnq : Bool)
    (h1 : dec.action = "end") (h2 : qi < planLen - 1) :
    (process_decision dec qid qi fc pf planLen st lang hnq).agent_decision = some "advance"
    ∧ (process_decision dec qid qi fc pf planLen st lang hnq).ended_at_set = false
    ∧ (process_decision dec qid qi fc pf planLen st lang hnq).new_state.question_index
        = qi + 1 := by
  refine ⟨?_, ?_, ?_⟩ <;> simp [process_decision, h1, h2]

theorem pd_not_end (dec : Decision) (qid : Option String) (qi fc : Nat)
    (pf : List String) (planLen : Nat) (st : ConvState) (lang : String) (hnq : Bool)
    (hne : ¬(dec.action = "end")) :
    ¬((process_decision dec qid qi fc pf planLen st lang hnq).agent_decision = some "end")
    ∧ (process_decision dec qid qi fc pf planLen st lang hnq).ended_at_set = false := by
  unfold process_decision
  cases hA : (dec.action == "followup" && optTruthy dec.followup_question)
  case true =>
    constructor
    · simp
    · rfl
  case false =>
    cases hB : (dec.action == "hint")
    case true =>
      constructor
      · simp
      · rfl
    case false =>
      have hC : (dec.action == "end" && decide (qi < planLen - 1)) = false := by
        simp [hne]
      simp only [hC, Bool.false_eq_true, if_false]
      have hD : (dec.action == "end") = false := by
        simp [hne]
      simp only [hD, Bool.false_eq_true, if_false]
      constructor
      · simp [hne]
      · trivial

/-- **C2.** Across every code path: (a) outside the pytest short-circuit,
`AgentReasoningLoop.run` — main tool-call path, text-only heuristic path,
Groq fallback and deterministic fallback alike — only ever returns an `end`
decision when the context sits on the last plan slot; (b) `_process_decision`
records `end` (and sets `ended_at`) only when `question_index` is at least
the last slot index, and `ended_at` is set exactly when `end` is recorded;
and (c) an `end` proposed on an earlier slot is rewritten to `advance`,
advancing the state pointer instead of ending the session. -/
theorem end_only_on_last_slot (env : RunEnv) (ctx : AgentCtx) (dec : Decision)
    (qid : Option String) (qi fc : Nat) (pf : List String) (planLen : Nat)
    (st : ConvState) (lang : String) (hnq : Bool) :
    (env.testMode = false → (run env ctx).action = "end" → is_last_question ctx = true)
    ∧ ((process_decision dec qid qi fc pf planLen st lang hnq).agent_decision = some "end" →
        (process_decision dec qid qi fc pf planLen st lang hnq).ended_at_set = true
        ∧ planLen - 1 ≤ qi)
    ∧ ((process_decision dec qid qi fc pf planLen st lang hnq).ended_at_set = true →
        (process_decision dec qid qi fc pf planLen st lang hnq).agent_decision = some "end")
    ∧ (dec.action = "end" → qi < planLen - 1 →
        (process_decision dec qid qi fc pf planLen st lang hnq).agent_decision = some "advance"
        ∧ (process_decision dec qid qi fc pf planLen st lang hnq).ended_at_set = false
        ∧ (process_decision dec qid qi fc pf planLen st lang hnq).new_state.question_index
            = qi + 1) := by
  refine ⟨?_, ?_, ?_, ?_⟩
  · intro ht h
    unfold run at h
    rw [ht] at h
    simp only [Bool.false_eq_true, if_false] at h
    exact run_loop_action_end env ctx MAX_ITERATIONS 0 none none none h
  · intro h
    by_cases hend : dec.action = "end"
    · by_cases hlt : qi < planLen - 1
      · rw [(pd_early_end dec qid qi fc pf planLen st lang hnq hend hlt).1] at h
        simp at h
      · rw [pd_end_branch dec qid qi fc pf planLen st lang hnq hend hlt]
        exact ⟨rfl, Nat.le_of_not_lt hlt⟩
    · exact absurd h (pd_not_end dec qid qi fc pf planLen st lang hnq hend).1
  · intro h
    by_cases hend : dec.action = "end"
    · by_cases hlt : qi < planLen - 1
      · rw [(pd_early_end dec qid qi fc pf planLen st lang hnq hend hlt).2.1] at h
        simp at h
      · rw [pd_end_branch dec qid qi fc pf planLen st lang hnq hend hlt]
    · rw [(pd_not_end dec qid qi fc pf planLen st lang hnq hend).2] at h
      simp at h
  · intro hend hlt
    exact pd_early_end dec qid qi fc pf planLen st lang hnq hend hlt

/-- A context on the last slot (index 2 of 3). -/
def lastSlotCtx : AgentCtx :=
  build_context_from_request "s1" "q3" "Final question" "open" []
    (some "my answer") none 3 2 0 [] "friendly" "english"

/-- Witness for `end_only_on_last_slot`: the run-level guarantee at a
concrete failing-generator environment whose fallback ends on the last
slot, and the early-`end` rewrite at slot 0 of a 3-slot plan. -/
theorem end_only_on_last_slot_witness :
    is_last_question lastSlotCtx = true
    ∧ (process_decision ⟨"end", "Thanks for everything", none, 7/10⟩ (some "q1") 0 0 []
        3 ⟨none, 0, 0, 0, []⟩ "english" true).agent_decision = some "advance"
    ∧ (process_decision ⟨"end", "Thanks for everything", none, 7/10⟩ (some "q1") 0 0 []
        3 ⟨none, 0, 0, 0, []⟩ "english" true).new_state.question_index = 1 :=
  ⟨(end_only_on_last_slot noopRunEnv lastSlotCtx ⟨"end", "", none, 0⟩ none 0 0 [] 1
      ⟨none, 0, 0, 0, []⟩ "english" true).1 rfl rfl,
   ((end_only_on_last_slot noopRunEnv lastSlotCtx ⟨"end", "Thanks for everything", none, 7/10⟩
      (some "q1") 0 0 [] 3 ⟨none, 0, 0, 0, []⟩ "english" true).2.2.2 rfl (by decide)).1,
   ((end_only_on_last_slot noopRunEnv lastSlotCtx ⟨"end", "Thanks for everything", none, 7/10⟩
      (some "q1") 0 0 [] 3 ⟨none, 0, 0, 0, []⟩ "english" true).2.2.2 rfl (by decide)).2.2⟩

theorem jaccardQ_comm (a b : Finset String) :
    Selection.jaccardQ a b = Selection.jaccardQ b a := by
  unfold Selection.jaccardQ
  rw [Finset.union_comm, Finset.inter_comm]

theorem foldl_max_init_le (t : Finset String) (l : List (Finset String)) :
    ∀ acc : ℚ, acc ≤ l.foldl (fun m q => max m (Selection.jaccardQ t q)) acc := by
  induction l with
  | nil =>
    intro acc
    exact le_refl acc
  | cons x xs ih =>
    intro acc
    exact le_trans (le_max_left acc (Selection.jaccardQ t x))
      (ih (max acc (Selection.jaccardQ t x)))

theorem le_foldl_max (t : Finset String) (l : List (Finset String)) (p : Finset String)
    (hp : p ∈ l) :
    ∀ acc : ℚ, Selection.jaccardQ t p ≤ l.foldl (fun m q => max m (Selection.jaccardQ t q)) acc := by
  induction l with
  | nil => cases hp
  | cons x xs ih =>
    intro acc
    rcases List.mem_cons.1 hp with rfl | hx
    · exact le_trans (le_max_right acc (Selection.jaccardQ t p)) (foldl_max_init_le t xs _)
    · exact ih hx _

theorem le_maxOverlap (t : Finset String) (l : List (Finset String)) (p : Finset String)
    (hp : p ∈ l) : Selection.jaccardQ t p ≤ Selection.maxOverlap t l :=
  le_foldl_max t l p hp 0

theorem selectLoopG_pairwise (pick : Nat → Nat) (num : Nat) :
    ∀ (fuel : Nat) (pool : List (Selection.SQ × ℚ)) (usedIds : List String)
      (selected : List (Selection.SQ × Nat)) (selTopics : List (Finset String)) (step : Nat),
      selTopics = selected.map (fun x => Selection.topicSet x.1) →
      List.Pairwise (fun a b => 2 ≤ b.2 →
        Selection.jaccardQ (Selection.topicSet a.1) (Selection.topicSet b.1) ≤ 7/10) selected →
      List.Pairwise (fun a b => 2 ≤ b.2 →
        Selection.jaccardQ (Selection.topicSet a.1) (Selection.topicSet b.1) ≤ 7/10)
        (Selection.selectLoopG pick num fuel pool usedIds selected selTopics step) := by
  intro fuel
  induction fuel with
  | zero =>
    intro pool usedIds selected selTopics step hmap hpw
    exact hpw
  | succ n ih =>
    intro pool usedIds selected selTopics step hmap hpw
    simp only [Selection.selectLoopG]
    cases h1 : (decide (selected.length < num) && !pool.isEmpty)
    case false =>
      exact hpw
    case true =>
      by_cases h2 : (pool.filter (fun p => !(usedIds.contains p.1.id))).length = 0
      · rw [dif_pos h2]
        exact hpw
      · rw [dif_neg h2]
        cases h3 : (decide (Selection.maxOverlap
              (Selection.topicSet ((pool.filter (fun p => !(usedIds.contains p.1.id))).get
                ⟨pick step % (pool.filter (fun p => !(usedIds.contains p.1.id))).length,
                  Nat.mod_lt _ (Nat.pos_of_ne_zero h2)⟩).1)
              selTopics > 7/10)
            && decide ((pool.filter (fun p => !(usedIds.contains p.1.id))).length > 1))
        case neg.true =>
          exact ih _ _ _ _ _ hmap hpw
        case neg.false =>
          apply ih
          · rw [hmap, List.map_append]
            rfl
          · rw [List.pairwise_append]
            refine ⟨hpw, List.pairwise_singleton _ _, ?_⟩
            intro a ha b hb
            rw [List.mem_singleton] at hb
            subst hb
            intro hlen2
            have hrem : decide ((pool.filter (fun p => !(usedIds.contains p.1.id))).length > 1) = true :=
              decide_eq_true (by omega)
            have hmo : ¬(Selection.maxOverlap
                (Selection.topicSet ((pool.filter (fun p => !(usedIds.contains p.1.id))).get
                  ⟨pick step % (pool.filter (fun p => !(usedIds.contains p.1.id))).length,
                    Nat.mod_lt _ (Nat.pos_of_ne_zero h2)⟩).1)
                selTopics > 7/10) := by
              rw [Bool.and_eq_false_iff] at h3
              rcases h3 with h3 | h3
              · exact of_decide_eq_false h3
              · rw [h3] at hrem
                simp at hrem
            rw [jaccardQ_comm]
            refine le_trans ?_ (le_of_not_lt hmo)
            apply le_maxOverlap
            rw [hmap]
            exact List.mem_map_of_mem _ ha

theorem selectLoop_eq_mapG (pick : Nat → Nat) (num : Nat) :
    ∀ (fuel : Nat) (pool : List (Selection.SQ × ℚ)) (usedIds : List String)
      (selG : List (Selection.SQ × Nat)) (selTopics : List (Finset String)) (step : Nat),
      Selection.selectLoop pick num fuel pool usedIds (selG.map Prod.fst) selTopics step
        = (Selection.selectLoopG pick num fuel pool usedIds selG selTopics step).map Prod.fst := by
  intro fuel
  induction fuel with
  | zero =>
    intro pool usedIds selG selTopics step
    rfl
  | succ n ih =>
    intro pool usedIds selG selTopics step
    simp only [Selection.selectLoop, Selection.selectLoopG, List.length_map]
    cases h1 : (decide (selG.length < num) && !pool.isEmpty)
    case false =>
      rfl
    case true =>
      by_cases h2 : (pool.filter (fun p => !(usedIds.contains p.1.id))).length = 0
      · rw [dif_pos h2, dif_pos h2]
        rfl
      · rw [dif_neg h2, dif_neg h2]
        cases h3 : (decide (Selection.maxOverlap
              (Selection.topicSet ((pool.filter (fun p => !(usedIds.contains p.1.id))).get
                ⟨pick step % (pool.filter (fun p => !(usedIds.contains p.1.id))).length,
                  Nat.mod_lt _ (Nat.pos_of_ne_zero h2)⟩).1)
              selTopics > 7/10)
            && decide ((pool.filter (fun p => !(usedIds.contains p.1.id))).length > 1))
        case neg.true =>
          exact ih _ _ _ _ _
        case neg.false =>
          rw [show selG.map Prod.fst ++
              [((pool.filter (fun p => !(usedIds.contains p.1.id))).get
                ⟨pick step % (pool.filter (fun p => !(usedIds.contains p.1.id))).length,
                  Nat.mod_lt _ (Nat.pos_of_ne_zero h2)⟩).1]
              = (selG ++ [(((pool.filter (fun p => !(usedIds.contains p.1.id))).get
                ⟨pick step % (pool.filter (fun p => !(usedIds.contains p.1.id))).length,
                  Nat.mod_lt _ (Nat.pos_of_ne_zero h2)⟩).1,
                (pool.filter (fun p => !(usedIds.contains p.1.id))).length)]).map Prod.fst
            from by simp]
          exact ih _ _ _ _ _

/-- **C7.** The instrumented selection run agrees with `_select_questions`
(first components), and it is pairwise diverse in the claimed sense: for
any two selected open questions, whenever the later pick was made while
the sampling pool (weighted by score squared over the top 3x-requested
scored candidates) still offered more than one remaining candidate, the
topic-set Jaccard similarity of the pair is at most 0.7.  A pick recorded
with a remaining-pool count of 1 is the pool-exhaustion case, the only one
allowed to exceed the threshold. -/
theorem open_question_diversity (pick : Nat → Nat) (bank : List Selection.SQ)
    (num : Nat) (w : List (String × ℚ)) (ex : List String) (sw : Option (ℚ × ℚ)) :
    Selection.select_questions pick bank num w ex sw
      = (Selection.select_questionsG pick bank num w ex sw).map Prod.fst
    ∧ List.Pairwise (fun a b => 2 ≤ b.2 →
        Selection.jaccardQ (Selection.topicSet a.1) (Selection.topicSet b.1) ≤ 7/10)
        (Selection.select_questionsG pick bank num w ex sw) := by
  constructor
  · unfold Selection.select_questions Selection.select_questionsG
    cases hc : (bank.filter
        (fun q => !(ex.contains q.id) && Selection.is_question_allowed q.text)).isEmpty
    case true =>
      simp only [hc, if_true]
      rfl
    case false =>
      simp only [hc, Bool.false_eq_true, if_false]
      rw [show (([] : List Selection.SQ) = ([] : List (Selection.SQ × Nat)).map Prod.fst)
        from rfl]
      rw [selectLoop_eq_mapG]
      rw [List.map_take]
  · unfold Selection.select_questionsG
    cases hc : (bank.filter
        (fun q => !(ex.contains q.id) && Selection.is_question_allowed q.text)).isEmpty
    case true =>
      simp only [hc, if_true]
      exact List.Pairwise.nil
    case false =>
      simp only [hc, Bool.false_eq_true, if_false]
      apply List.Pairwise.sublist (List.take_sublist _ _)
      exact selectLoopG_pairwise pick num _ _ _ _ _ _ rfl List.Pairwise.nil
